import Mathlib

/-!
Verification of the Cloud SQL Go connector (dialer.go and the DNS
instance-connection-name resolver) against its specification.

The Go source is shallowly embedded:

* Go strings are Lean strings; Go's byte-wise lexicographic string
  comparison is modelled by the lexicographic order on the underlying
  character list (UTF-8 encoding is order-isomorphic to code points,
  so the two orders agree).
* The external collaborators (the connection-name parser
  instance.ParseConnName, the DNS resolver netResolver.LookupSRV, the
  metadata provider, the low-level dial function, the TLS layer) are
  parameters of the embedding: each external call's outcome is supplied
  by an environment value, exactly one outcome per call site, matching
  the single call that the source performs.
* Go errors are values of a type parameter where the source never
  inspects them, and structured constructors for the errors this code
  itself builds with errtypes.NewDialError and fmt.Errorf.
-/

deriving instance DecidableEq for Except

namespace CloudSQLConn

/-- An instance connection name, canonically "project:region:name".
Corresponds to instance.ConnName in the source (external collaborator,
consumed as a black box that either parses or errors). -/
structure ConnName where
  project : String
  region : String
  name : String
deriving DecidableEq, Repr

/-- Modelled from the spec: instance.ParseConnName is not part of the
given source; the spec says parsing fails unless the string contains
exactly three colon-separated non-empty segments. Used only to build
concrete inputs; all resolver theorems take the parser as an abstract
parameter. -/
def ParseConnName (s : String) : Except String ConnName :=
  match splitOnColon s.data with
  | [p, r, n] =>
    if p ≠ [] ∧ r ≠ [] ∧ n ≠ [] then
      .ok ⟨String.mk p, String.mk r, String.mk n⟩
    else
      .error s
  | _ => .error s
where
  /-- Split a character list on colons (the list-level analogue of
  strings.Split(s, ":")). -/
  splitOnColon : List Char → List (List Char)
    | [] => [[]]
    | c :: cs =>
      match splitOnColon cs with
      | [] => if c = ':' then [[], []] else [[c]]
      | g :: gs => if c = ':' then [] :: g :: gs else (c :: g) :: gs

/-- A DNS SRV record as returned by net.Resolver.LookupSRV
(fields Target, Port, Priority, Weight of net.SRV). -/
structure SRV where
  target : String
  port : Nat
  priority : Nat
  weight : Nat
deriving DecidableEq, Repr

/-- The errors built by the resolver itself (queryDNS, part_000 lines
100, 108, 117). Each fmt.Errorf call site becomes one constructor
recording the format arguments; ε is the type of the underlying
errors produced by the parser and by LookupSRV. -/
inductive ResolveError (ε : Type) where
  /-- fmt.Errorf("unable to resolve SRV record for %q: %v", domainName, err) -/
  | lookupSRVFailed (domainName : String) (cause : ε)
  /-- fmt.Errorf("unable to parse SRV for %q: %v", domainName, parseErr) -/
  | parseSRVFailed (domainName : String) (cause : ε)
  /-- fmt.Errorf("no valid SRV records found for %q", domainName) -/
  | noValidRecords (domainName : String)
deriving DecidableEq, Repr

/-- The comparator passed to sort.Slice in queryDNS (part_000 lines
84-89): records[i] sorts before records[j] when its priority is lower,
with equal priorities ordered by target string. Go string comparison is
byte-wise lexicographic, modelled by the lexicographic order on the
character data. -/
def srvLess (a b : SRV) : Prop :=
  if a.priority = b.priority then a.target.data < b.target.data
  else a.priority < b.priority

/-- The non-strict total order induced by the sort.Slice comparator:
an output of sort.Slice with comparator srvLess is pairwise ordered by
srvLE (see srvLE_iff_not_srvLess). -/
def srvLE (a b : SRV) : Prop :=
  a.priority < b.priority ∨ (a.priority = b.priority ∧ a.target.data ≤ b.target.data)

instance : DecidableRel srvLess := fun a b => by
  unfold srvLess; infer_instance

instance : DecidableRel srvLE := fun a b => by
  unfold srvLE; infer_instance

instance : IsTotal SRV srvLE where
  total a b := by
    unfold srvLE
    rcases Nat.lt_trichotomy a.priority b.priority with h | h | h
    · exact Or.inl (Or.inl h)
    · rcases le_total a.target.data b.target.data with h2 | h2
      · exact Or.inl (Or.inr ⟨h, h2⟩)
      · exact Or.inr (Or.inr ⟨h.symm, h2⟩)
    · exact Or.inr (Or.inl h)

instance : IsTrans SRV srvLE where
  trans a b c hab hbc := by
    unfold srvLE at *
    rcases hab with h1 | ⟨h1, h1t⟩ <;> rcases hbc with h2 | ⟨h2, h2t⟩
    · exact Or.inl (Nat.lt_trans h1 h2)
    · exact Or.inl (h2 ▸ h1)
    · exact Or.inl (h1 ▸ h2)
    · exact Or.inr ⟨h1.trans h2, le_trans h1t h2t⟩

/-- The record ordering performed by queryDNS (part_000 lines 84-89).
sort.Slice is an unstable sort; its output is some permutation of the
input that is pairwise ordered by the comparator, which is what the
theorems below state about sortRecords. -/
def sortRecords (records : List SRV) : List SRV :=
  List.insertionSort srvLE records

/-- Remove trailing dots from an SRV target:
strings.TrimRight(record.Target, ".") at part_000 line 95, which strips
every trailing '.' character. -/
def stripTrailingDots (s : String) : String :=
  String.mk ((s.data.reverse.dropWhile (fun c => c = '.')).reverse)

/-- The record-processing loop of queryDNS together with its fall-through
error selection (part_000 lines 91-117). The first argument list is the
(already sorted) record slice still to be visited; the Option argument
is the running perr value (the last wrapped parse error, if any).
lookupErr is the err value returned by LookupSRV. On exhaustion the
source first surfaces the lookup error, then the last parse error, then
the generic no-valid-records error. -/
def resolveRecords {ε : Type} (parse : String → Except ε ConnName)
    (domainName : String) (lookupErr : Option ε) :
    List SRV → Option (ResolveError ε) → Except (ResolveError ε) ConnName
  | [], perr =>
    match lookupErr with
    | some e => .error (.lookupSRVFailed domainName e)
    | none =>
      match perr with
      | some pe => .error pe
      | none => .error (.noValidRecords domainName)
  | record :: rest, _perr =>
    match parse (stripTrailingDots record.target) with
    | .error parseErr =>
      resolveRecords parse domainName lookupErr rest
        (some (.parseSRVFailed domainName parseErr))
    | .ok cn => .ok cn

/-- queryDNS (part_000 lines 75-118): look up the SRV records for the
domain (the lookup may return records and an error simultaneously),
sort them, and scan them for the first target that parses as a
connection name. -/
def queryDNS {ε : Type} (parse : String → Except ε ConnName)
    (lookupSRV : String → List SRV × Option ε) (domainName : String) :
    Except (ResolveError ε) ConnName :=
  resolveRecords parse domainName (lookupSRV domainName).2
    (sortRecords (lookupSRV domainName).1) none

/-- DNSInstanceConnectionNameResolver.Lookup (part_000 lines 50-62):
parse the input directly; only if that fails, fall back to queryDNS. -/
def Lookup {ε : Type} (parse : String → Except ε ConnName)
    (lookupSRV : String → List SRV × Option ε) (icn : String) :
    Except (ResolveError ε) ConnName :=
  match parse icn with
  | .ok cn => .ok cn
  | .error _ => queryDNS parse lookupSRV icn

/-! ## The connection dialer (dialer.go)

The Dial protocol is embedded as a pure function over an environment
that records the outcome of each external call Dial makes, in program
order; each call site is consulted at most once, exactly as in the
source. The observable side effects the claims talk about (ForceRefresh
calls, dial attempts, connection closes, spawning of the counter
goroutine) are returned alongside the result. -/

/-- serverProxyPort (dialer.go line 46). -/
def serverProxyPort : String := "3307"

/-- net.JoinHostPort (dialer.go line 207): joins host and port with a
colon, bracketing the host when it contains a colon. -/
def joinHostPort (host port : String) : String :=
  if host.data.contains ':' then "[" ++ host ++ "]:" ++ port
  else host ++ ":" ++ port

/-- Modelled from the spec: errtypes.NewDialError is not part of the
given source. Per the spec, a dial error wraps the failure-stage
message, the instance's string identity and the root cause; the Dial
embedding builds one at exactly the call sites of dialer.go lines 212,
216, 219 and 227. An error that the source returns unchanged (lines
195, 200) is embedded with the passthrough constructor, which adds no
information. -/
inductive DialError (ε : Type) where
  | passthrough (cause : ε)
  | dialError (message : String) (connName : String) (cause : ε)
deriving DecidableEq, Repr

/-- A TLS client connection: tls.Client(conn, tlsCfg) pairs the raw
connection with the TLS configuration (dialer.go line 222). -/
structure TLSConn (γ α : Type) where
  raw : γ
  cfg : α
deriving DecidableEq, Repr

/-- Outcomes of the external calls made by one Dial invocation
(dialer.go lines 192-228), in program order. ε is the collaborators'
error type, α the TLS-configuration type, γ the raw connection type. -/
structure DialEnv (ε α γ : Type) where
  /-- outcome of d.instance(instance); ok carries the provider's string
  identity i.String(), the only part of the provider Dial reads in the
  claims below. -/
  instanceResult : Except ε String
  /-- outcome of i.ConnectInfo(ctx, cfg.ipType): an address and a TLS
  configuration, or an error. -/
  connectInfo : Except ε (String × α)
  /-- outcome of d.dialFunc(ctx, "tcp", addr) as a function of the
  joined address. -/
  dialFunc : String → Except ε γ
  /-- whether the raw connection is a *net.TCPConn (the type assertion
  at dialer.go line 214). -/
  isTCPConn : Bool
  /-- cfg.tcpKeepAlive, passed to SetKeepAlivePeriod. -/
  tcpKeepAlive : Nat
  /-- outcome of c.SetKeepAlive(true). -/
  setKeepAlive : Option ε
  /-- outcome of c.SetKeepAlivePeriod(cfg.tcpKeepAlive) as a function
  of the period. -/
  setKeepAlivePeriod : Nat → Option ε
  /-- outcome of tlsConn.Handshake(). -/
  handshake : Option ε
  /-- outcome of the tlsConn.Close() in the handshake-failure cleanup
  (dialer.go line 226; the source discards it). -/
  closeErr : Option ε

/-- Side effects of one Dial invocation observed by the claims. -/
structure DialTrace where
  /-- number of i.ForceRefresh() calls performed. -/
  forceRefreshCalls : Nat
  /-- number of d.dialFunc invocations (TCP dial attempts). -/
  dialAttempts : Nat
  /-- number of times Dial itself closed the connection. -/
  connCloseCalls : Nat
  /-- whether the goroutine that increments openConns was spawned
  (dialer.go lines 230-235). -/
  incSpawned : Bool
deriving DecidableEq, Repr

/-- The keep-alive configuration step (dialer.go lines 214-221):
performed only when the connection is a *net.TCPConn; either failure is
a fatal dial error carrying the instance identity, with no refresh and
no cleanup. -/
def keepAliveErr {ε α γ : Type} (env : DialEnv ε α γ) (instName : String) :
    Option (DialError ε) :=
  if env.isTCPConn then
    match env.setKeepAlive with
    | some e => some (.dialError "failed to set keep-alive" instName e)
    | none =>
      match env.setKeepAlivePeriod env.tcpKeepAlive with
      | some e => some (.dialError "failed to set keep-alive period" instName e)
      | none => none
  else none

/-- Dialer.Dial (dialer.go lines 177-242), with the tracing spans and
the metrics emission elided (excluded from the specified scope).
Returns the value returned to the caller together with the observable
side effects. -/
def dial {ε α γ : Type} (env : DialEnv ε α γ) :
    Except (DialError ε) (TLSConn γ α) × DialTrace :=
  match env.instanceResult with
  | .error e => (.error (.passthrough e), ⟨0, 0, 0, false⟩)
  | .ok instName =>
    match env.connectInfo with
    | .error e => (.error (.passthrough e), ⟨0, 0, 0, false⟩)
    | .ok (addr, tlsCfg) =>
      match env.dialFunc (joinHostPort addr serverProxyPort) with
      | .error e =>
        (.error (.dialError "failed to dial" instName e), ⟨1, 1, 0, false⟩)
      | .ok rawConn =>
        match keepAliveErr env instName with
        | some de => (.error de, ⟨0, 1, 0, false⟩)
        | none =>
          match env.handshake with
          | some e =>
            (.error (.dialError "handshake failed" instName e), ⟨1, 1, 1, false⟩)
          | none => (.ok ⟨rawConn, tlsCfg⟩, ⟨0, 1, 0, true⟩)

/-- instrumentedConn.Close (dialer.go lines 262-269): delegate to the
underlying close; when it fails, return its error; otherwise spawn the
close callback and return a nil error. The first component is the error
returned to the caller (none is nil), the second records whether the
callback goroutine was spawned. -/
def instrumentedConnClose {ε : Type} (underlyingClose : Option ε) :
    Option ε × Bool :=
  match underlyingClose with
  | some e => (some e, false)
  | none => (none, true)

/-- Dialer.instance (dialer.go lines 311-333): double-checked
get-or-create of the cached metadata provider for a connection name.
The map d.instances is a function from connection names to optional
providers of type ι; the sequential embedding of the lock-protected
reads makes the read-lock check and the write-lock re-check read the
same map. Returns the provider or the construction error, together with
the updated map. -/
def dialerInstance {ε ι : Type} (newInstance : String → Except ε ι)
    (instances : String → Option ι) (connName : String) :
    Except ε ι × (String → Option ι) :=
  match instances connName with
  | some i => (.ok i, instances)
  | none =>
    match instances connName with
    | some i => (.ok i, instances)
    | none =>
      match newInstance connName with
      | .error e => (.error e, instances)
      | .ok i => (.ok i, fun k => if k = connName then some i else instances k)

/-! ### Bookkeeping-goroutine interleavings (for the counter-ordering claim)

On the success path Dial spawns a goroutine that increments
openConns[instance] (dialer.go lines 230-235) and then returns the
instrumented connection (lines 237-241); a later successful Close
spawns a goroutine that decrements the counter (lines 262-269). The Go
runtime orders each goroutine body after its spawn statement and
preserves the program order of the spawning thread, and provides no
other ordering between the two goroutine bodies. Schedules of this pair
of goroutines are modelled as permutations of the six events subject to
exactly those constraints. -/

/-- The per-connection bookkeeping events of one successful Dial and
one subsequent successful Close of the returned connection. -/
inductive ConnEvent where
  /-- the go statement at dialer.go line 230 spawning the increment. -/
  | spawnIncrement
  /-- Dial returns the instrumented connection (line 237). -/
  | returnConn
  /-- the caller's Close; the underlying close succeeds (line 263). -/
  | closeConn
  /-- the go statement at line 267 spawning the decrement callback. -/
  | spawnDecrement
  /-- the increment goroutine body runs (line 232). -/
  | runIncrement
  /-- the decrement goroutine body runs (line 239). -/
  | runDecrement
deriving DecidableEq, Repr

/-- All six events; each occurs exactly once per dial/close pair. -/
def allConnEvents : List ConnEvent :=
  [.spawnIncrement, .returnConn, .closeConn, .spawnDecrement,
   .runIncrement, .runDecrement]

/-- The program order of the spawning thread: the increment is spawned
before the connection is returned, the connection is closed only after
it was returned, and the decrement is spawned by the successful close. -/
def mainThreadEvents : List ConnEvent :=
  [.spawnIncrement, .returnConn, .closeConn, .spawnDecrement]

/-- Happens-before on a schedule in which every event occurs once. -/
def eventBefore (s : List ConnEvent) (a b : ConnEvent) : Prop :=
  s.indexOf a < s.indexOf b

instance (s : List ConnEvent) (a b : ConnEvent) : Decidable (eventBefore s a b) := by
  unfold eventBefore; infer_instance

instance (s : List ConnEvent) : DecidableRel (eventBefore s) := fun a b => by
  unfold eventBefore; infer_instance

/-- A schedule permitted by the Go runtime for the six events: a
permutation of all of them that preserves the spawning thread's program
order and runs each goroutine body after its spawn. -/
def ValidSchedule (s : List ConnEvent) : Prop :=
  s.Perm allConnEvents ∧
  List.Pairwise (eventBefore s) mainThreadEvents ∧
  eventBefore s .spawnIncrement .runIncrement ∧
  eventBefore s .spawnDecrement .runDecrement

instance (s : List ConnEvent) : Decidable (ValidSchedule s) := by
  unfold ValidSchedule; infer_instance

/-- Effect of an event on the openConns counter of the dialed
identifier (dialer.go lines 232 and 239). -/
def counterDelta : ConnEvent → Int
  | .runIncrement => 1
  | .runDecrement => -1
  | _ => 0

/-- Counter value after a (prefix of a) schedule, starting from 0. -/
def counterAfter (s : List ConnEvent) : Int :=
  (s.map counterDelta).sum

/-- The ordering the claim asserts: the increment is observed before
the connection is returned to the caller. -/
def IncrementBeforeReturn (s : List ConnEvent) : Prop :=
  eventBefore s .runIncrement .returnConn

instance (s : List ConnEvent) : Decidable (IncrementBeforeReturn s) := by
  unfold IncrementBeforeReturn; infer_instance

theorem srvLE_iff_not_srvLess (a b : SRV) : srvLE a b ↔ ¬ srvLess b a := by
  unfold srvLE srvLess
  rcases Nat.lt_trichotomy a.priority b.priority with h | h | h
  · simp [Nat.ne_of_gt h, Nat.lt_asymm h, h]
  · simp [h, not_lt]
  · simp [Nat.ne_of_lt h, Nat.ne_of_gt h, Nat.lt_asymm h, h]

/-! ### Lemmas about the record-processing loop -/

/-- The loop never succeeds on an empty slice. -/
theorem resolveRecords_nil_ne_ok {ε : Type} (parse : String → Except ε ConnName)
    (d : String) (lerr : Option ε) (perr : Option (ResolveError ε)) (cn : ConnName) :
    resolveRecords parse d lerr [] perr ≠ .ok cn := by
  cases lerr with
  | some e => simp [resolveRecords]
  | none =>
    cases perr with
    | some pe => simp [resolveRecords]
    | none => simp [resolveRecords]

/-- The loop returns .ok cn exactly when some record r in the slice has a
target that, after stripping trailing dots, parses to cn, and every
record before r fails to parse. -/
theorem resolveRecords_ok_iff {ε : Type} (parse : String → Except ε ConnName)
    (d : String) (lerr : Option ε) :
    ∀ (l : List SRV) (perr : Option (ResolveError ε)) (cn : ConnName),
    resolveRecords parse d lerr l perr = .ok cn ↔
      ∃ pre r post, l = pre ++ r :: post ∧
        (∀ r2 ∈ pre, (parse (stripTrailingDots r2.target)).isOk = false) ∧
        parse (stripTrailingDots r.target) = .ok cn := by
  intro l
  induction l with
  | nil =>
    intro perr cn
    constructor
    · intro h
      exact absurd h (resolveRecords_nil_ne_ok parse d lerr perr cn)
    · rintro ⟨pre, r, post, h, -, -⟩
      exact absurd h.symm (List.append_ne_nil_of_right_ne_nil pre (List.cons_ne_nil r post))
  | cons a rest ih =>
    intro perr cn
    cases hp : parse (stripTrailingDots a.target) with
    | ok cn0 =>
      constructor
      · intro h
        simp only [resolveRecords, hp, Except.ok.injEq] at h
        exact ⟨[], a, rest, rfl, by simp, h ▸ hp⟩
      · rintro ⟨pre, r, post, hsplit, hfail, hok⟩
        cases pre with
        | nil =>
          simp only [List.nil_append, List.cons.injEq] at hsplit
          simp only [resolveRecords, hp]
          rw [hsplit.1] at hp
          rw [hp] at hok
          rw [Except.ok.inj hok]
        | cons p ps =>
          simp only [List.cons_append, List.cons.injEq] at hsplit
          have := hfail p (by simp)
          rw [← hsplit.1, hp] at this
          simp [Except.isOk, Except.toBool] at this
    | error e =>
      simp only [resolveRecords, hp]
      rw [ih]
      constructor
      · rintro ⟨pre, r, post, hsplit, hfail, hok⟩
        refine ⟨a :: pre, r, post, by rw [hsplit]; rfl, ?_, hok⟩
        intro r2 hr2
        rcases List.mem_cons.mp hr2 with h | h
        · rw [h, hp]; rfl
        · exact hfail r2 h
      · rintro ⟨pre, r, post, hsplit, hfail, hok⟩
        cases pre with
        | nil =>
          simp only [List.nil_append, List.cons.injEq] at hsplit
          rw [← hsplit.1, hp] at hok
          exact absurd hok (by simp)
        | cons p ps =>
          simp only [List.cons_append, List.cons.injEq] at hsplit
          refine ⟨ps, r, post, hsplit.2, ?_, hok⟩
          intro r2 hr2
          exact hfail r2 (List.mem_cons_of_mem p hr2)

/-- If every record in the slice fails to parse and the SRV lookup itself
reported an error, the loop surfaces the lookup error wrapped with the
domain name, whatever the running parse error is. -/
theorem resolveRecords_allFail_lookupErr {ε : Type} (parse : String → Except ε ConnName)
    (d : String) (e : ε) :
    ∀ (l : List SRV) (perr : Option (ResolveError ε)),
    (∀ r ∈ l, (parse (stripTrailingDots r.target)).isOk = false) →
    resolveRecords parse d (some e) l perr = .error (.lookupSRVFailed d e) := by
  intro l
  induction l with
  | nil => intro perr _; rfl
  | cons a rest ih =>
    intro perr hfail
    have ha := hfail a (by simp)
    cases hp : parse (stripTrailingDots a.target) with
    | ok cn0 => rw [hp] at ha; simp [Except.isOk, Except.toBool] at ha
    | error pe =>
      simp only [resolveRecords, hp]
      exact ih _ (fun r hr => hfail r (List.mem_cons_of_mem a hr))

/-- If every record in a non-empty slice fails to parse and the lookup
reported no error, the loop surfaces the parse error of the last record,
wrapped with the domain name, whatever the running parse error is. -/
theorem resolveRecords_allFail_parseErr {ε : Type} (parse : String → Except ε ConnName)
    (d : String) :
    ∀ (l : List SRV) (perr : Option (ResolveError ε)), l ≠ [] →
    (∀ r ∈ l, (parse (stripTrailingDots r.target)).isOk = false) →
    ∃ r e, l.getLast? = some r ∧ parse (stripTrailingDots r.target) = .error e ∧
      resolveRecords parse d none l perr = .error (.parseSRVFailed d e) := by
  intro l
  induction l with
  | nil => intro _ h; exact absurd rfl h
  | cons a rest ih =>
    intro perr _ hfail
    have ha := hfail a (by simp)
    cases hp : parse (stripTrailingDots a.target) with
    | ok cn0 => rw [hp] at ha; simp [Except.isOk, Except.toBool] at ha
    | error pe =>
      cases rest with
      | nil =>
        exact ⟨a, pe, rfl, hp, by simp [resolveRecords, hp]⟩
      | cons b rest2 =>
        obtain ⟨r, e, hlast, hperr, hres⟩ :=
          ih (some (.parseSRVFailed d pe)) (List.cons_ne_nil b rest2)
            (fun r hr => hfail r (List.mem_cons_of_mem a hr))
        refine ⟨r, e, ?_, hperr, ?_⟩
        · rw [List.getLast?_cons_cons]; exact hlast
        · simp only [resolveRecords, hp]; exact hres

/-- If the lookup reported no error and no record in the slice ever
failed or succeeded (the slice is empty and no parse error is pending),
the loop returns the generic no-valid-records error. -/
theorem resolveRecords_nil_noErr {ε : Type} (parse : String → Except ε ConnName)
    (d : String) :
    resolveRecords parse d (none : Option ε) [] none = .error (.noValidRecords d) := rfl

/-- If some record in the slice parses, the loop succeeds. -/
theorem resolveRecords_exists_ok {ε : Type} (parse : String → Except ε ConnName)
    (d : String) (lerr : Option ε) :
    ∀ (l : List SRV) (perr : Option (ResolveError ε)),
    (∃ r ∈ l, ∃ cn, parse (stripTrailingDots r.target) = .ok cn) →
    ∃ cn, resolveRecords parse d lerr l perr = .ok cn := by
  intro l
  induction l with
  | nil =>
    rintro perr ⟨r, hr, -⟩
    exact absurd hr (List.not_mem_nil r)
  | cons a rest ih =>
    rintro perr ⟨r, hr, cn, hok⟩
    cases hp : parse (stripTrailingDots a.target) with
    | ok cn0 => exact ⟨cn0, by simp [resolveRecords, hp]⟩
    | error pe =>
      rcases List.mem_cons.mp hr with h | h
      · rw [h, hp] at hok
        exact absurd hok (by simp)
      · obtain ⟨cn2, hres⟩ := ih _ ⟨r, h, cn, hok⟩
        exact ⟨cn2, by simp only [resolveRecords, hp]; exact hres⟩

/-! ### Claim theorems for the name resolver -/

/-- C1: when no SRV record parses as an instance identifier, queryDNS
returns errors by three-tier priority: a lookup error (wrapped with the
domain name) first; otherwise the last per-record parse error (wrapped
with the domain name); otherwise a generic no-valid-records error for
the domain name. And when the lookup returns both records and an error,
the records are still processed: any successfully parsing record yields
success instead of the lookup error. -/
theorem queryDNS_error_priority {ε : Type} (parse : String → Except ε ConnName)
    (lookupSRV : String → List SRV × Option ε) (domainName : String)
    (records : List SRV) (err : Option ε)
    (hlu : lookupSRV domainName = (records, err)) :
    ((∀ r ∈ records, (parse (stripTrailingDots r.target)).isOk = false) →
      (∀ e, err = some e →
        queryDNS parse lookupSRV domainName = .error (.lookupSRVFailed domainName e)) ∧
      (err = none → records ≠ [] →
        ∃ r e, (sortRecords records).getLast? = some r ∧
          parse (stripTrailingDots r.target) = .error e ∧
          queryDNS parse lookupSRV domainName = .error (.parseSRVFailed domainName e)) ∧
      (err = none → records = [] →
        queryDNS parse lookupSRV domainName = .error (.noValidRecords domainName))) ∧
    (∀ r ∈ records, ∀ cn, parse (stripTrailingDots r.target) = .ok cn →
      ∃ cn2, queryDNS parse lookupSRV domainName = .ok cn2) := by
  have hperm : (sortRecords records).Perm records :=
    List.perm_insertionSort srvLE records
  unfold queryDNS
  rw [hlu]
  constructor
  · intro hfail
    have hfail2 : ∀ r ∈ sortRecords records,
        (parse (stripTrailingDots r.target)).isOk = false :=
      fun r hr => hfail r (hperm.mem_iff.mp hr)
    refine ⟨?_, ?_, ?_⟩
    · intro e he
      rw [he]
      exact resolveRecords_allFail_lookupErr parse domainName e _ none hfail2
    · intro he hne
      rw [he]
      have hsne : sortRecords records ≠ [] := by
        intro h
        exact hne ((h ▸ hperm : List.Perm [] records).symm.eq_nil)
      exact resolveRecords_allFail_parseErr parse domainName _ none hsne hfail2
    · intro he hnil
      rw [he, hnil]
      exact resolveRecords_nil_noErr parse domainName
  · intro r hr cn hok
    exact resolveRecords_exists_ok parse domainName err _ none
      ⟨r, hperm.mem_iff.mpr hr, cn, hok⟩

/-- Witness for C1: with two unparseable records and a lookup error, the
lookup error is surfaced, wrapped with the domain name. -/
theorem queryDNS_error_priority_witness :
    queryDNS ParseConnName
      (fun _ => ([⟨"bad-one.", 0, 5, 0⟩, ⟨"also-bad.", 0, 10, 0⟩], some "boom"))
      "db.example.com" = .error (.lookupSRVFailed "db.example.com" "boom") :=
  ((queryDNS_error_priority ParseConnName
      (fun _ => ([⟨"bad-one.", 0, 5, 0⟩, ⟨"also-bad.", 0, 10, 0⟩], some "boom"))
      "db.example.com" [⟨"bad-one.", 0, 5, 0⟩, ⟨"also-bad.", 0, 10, 0⟩] (some "boom")
      rfl).1 (by decide)).1 "boom" rfl

/-- C2: queryDNS orders the records ascending by priority, breaking ties
ascending by target string, then returns the first record in that order
whose target, after stripping trailing dots, parses as an instance
identifier; records with unparseable targets are skipped. -/
theorem queryDNS_sorted_first_valid {ε : Type} (parse : String → Except ε ConnName)
    (lookupSRV : String → List SRV × Option ε) (domainName : String)
    (records : List SRV) (err : Option ε)
    (hlu : lookupSRV domainName = (records, err)) (hne : records ≠ []) :
    (sortRecords records).Perm records ∧
    (sortRecords records).Pairwise
      (fun a b => a.priority < b.priority ∨
        (a.priority = b.priority ∧ a.target.data ≤ b.target.data)) ∧
    ∀ cn, (queryDNS parse lookupSRV domainName = .ok cn ↔
      ∃ pre r post, sortRecords records = pre ++ r :: post ∧
        (∀ r2 ∈ pre, (parse (stripTrailingDots r2.target)).isOk = false) ∧
        parse (stripTrailingDots r.target) = .ok cn) := by
  refine ⟨List.perm_insertionSort srvLE records,
    List.sorted_insertionSort srvLE records, ?_⟩
  intro cn
  unfold queryDNS
  rw [hlu]
  exact resolveRecords_ok_iff parse domainName err (sortRecords records) none cn

/-- Witness for C2: a record with an unparseable target and lowest
priority is skipped; among the two remaining records of equal priority
the lexicographically smaller target wins. -/
theorem queryDNS_sorted_first_valid_witness :
    queryDNS ParseConnName
      (fun _ => ([⟨"my-project:us-central1:b-instance.", 0, 10, 0⟩,
                  ⟨"bad", 0, 5, 0⟩,
                  ⟨"my-project:us-central1:a-instance.", 0, 10, 0⟩], none))
      "db.example.com" = .ok ⟨"my-project", "us-central1", "a-instance"⟩ :=
  ((queryDNS_sorted_first_valid ParseConnName
      (fun _ => ([⟨"my-project:us-central1:b-instance.", 0, 10, 0⟩,
                  ⟨"bad", 0, 5, 0⟩,
                  ⟨"my-project:us-central1:a-instance.", 0, 10, 0⟩], none))
      "db.example.com"
      [⟨"my-project:us-central1:b-instance.", 0, 10, 0⟩,
       ⟨"bad", 0, 5, 0⟩,
       ⟨"my-project:us-central1:a-instance.", 0, 10, 0⟩] none
      rfl (by decide)).2.2 ⟨"my-project", "us-central1", "a-instance"⟩).mpr
    ⟨[⟨"bad", 0, 5, 0⟩], ⟨"my-project:us-central1:a-instance.", 0, 10, 0⟩,
     [⟨"my-project:us-central1:b-instance.", 0, 10, 0⟩],
     by decide, by decide, by decide⟩

/-- C3: an input that parses directly as an instance identifier is
returned unchanged by Lookup, and the result does not depend on the DNS
lookup function (DNS is never consulted for already-canonical input). -/
theorem Lookup_canonical_bypasses_dns {ε : Type} (parse : String → Except ε ConnName)
    (lookupSRV lookupSRV2 : String → List SRV × Option ε) (icn : String)
    (cn : ConnName) (h : parse icn = .ok cn) :
    Lookup parse lookupSRV icn = .ok cn ∧
    Lookup parse lookupSRV icn = Lookup parse lookupSRV2 icn := by
  unfold Lookup
  rw [h]
  exact ⟨rfl, rfl⟩

/-- Witness for C3: a canonical connection name bypasses DNS. -/
theorem Lookup_canonical_bypasses_dns_witness :
    Lookup ParseConnName (fun _ => ([], some "dns is down"))
      "my-project:us-central1:my-instance" =
      .ok ⟨"my-project", "us-central1", "my-instance"⟩ :=
  (Lookup_canonical_bypasses_dns ParseConnName (fun _ => ([], some "dns is down"))
    (fun _ => ([⟨"other:thing:here", 0, 1, 0⟩], none))
    "my-project:us-central1:my-instance"
    ⟨"my-project", "us-central1", "my-instance"⟩ (by decide)).1

/-! ### Claim theorems for the dialer -/

/-- Counter bookkeeping in a schedule splits into increment and
decrement counts. -/
theorem counterAfter_eq_counts (l : List ConnEvent) :
    counterAfter l = (l.count .runIncrement : Int) - (l.count .runDecrement : Int) := by
  induction l with
  | nil => rfl
  | cons a t ih =>
    have : counterAfter (a :: t) = counterDelta a + counterAfter t := by
      simp [counterAfter]
    rw [this, ih]
    cases a <;> simp [counterDelta, List.count_cons] <;> ring

/-- Counterexample to C4: the source spawns the counter increment in a
goroutine (dialer.go line 230) and returns without waiting for it, so
there is a valid schedule in which the returned connection is closed
and the decrement runs before the increment, and the counter is
observed at -1. -/
theorem dial_increment_order_counterexample :
    ValidSchedule [.spawnIncrement, .returnConn, .closeConn, .spawnDecrement,
                   .runDecrement, .runIncrement] ∧
    ¬ IncrementBeforeReturn [.spawnIncrement, .returnConn, .closeConn,
                             .spawnDecrement, .runDecrement, .runIncrement] ∧
    eventBefore [.spawnIncrement, .returnConn, .closeConn, .spawnDecrement,
                 .runDecrement, .runIncrement] .runDecrement .runIncrement ∧
    counterAfter ([ConnEvent.spawnIncrement, .returnConn, .closeConn,
                   .spawnDecrement, .runDecrement, .runIncrement].take 5) = -1 := by
  decide

/-- C4 amended: within one successful Dial followed by one successful
close, every schedule the runtime permits spawns the increment
goroutine before the connection is returned and spawns the decrement
goroutine only after the close; each bookkeeping goroutine runs exactly
once, so the counter never drops below -1 and is back to 0 once the
schedule completes. The increment execution itself is not ordered
before the return or before the decrement (see the counterexample). -/
theorem dial_counter_bookkeeping (s : List ConnEvent) (hs : ValidSchedule s) :
    eventBefore s .spawnIncrement .returnConn ∧
    eventBefore s .closeConn .spawnDecrement ∧
    counterAfter s = 0 ∧
    ∀ n, -1 ≤ counterAfter (s.take n) := by
  obtain ⟨hperm, horder, -, -⟩ := hs
  simp only [mainThreadEvents, List.pairwise_cons, List.mem_cons,
    List.mem_singleton, List.not_mem_nil, forall_eq_or_imp, forall_eq,
    List.Pairwise.nil, and_true, IsEmpty.forall_iff, implies_true] at horder
  refine ⟨?_, ?_, ?_, ?_⟩
  · exact horder.1.1
  · exact horder.2.2
  · have := (hperm.map counterDelta).sum_eq
    simpa [counterAfter] using this
  · intro n
    rw [counterAfter_eq_counts]
    have h1 : (s.take n).count ConnEvent.runDecrement ≤ s.count ConnEvent.runDecrement :=
      (List.take_sublist n s).count_le ConnEvent.runDecrement
    have h2 : s.count ConnEvent.runDecrement = 1 := by
      rw [hperm.count_eq]
      decide
    omega

/-- Witness for the amended C4 theorem, at a schedule in which each
goroutine runs immediately after its spawn. -/
theorem dial_counter_bookkeeping_witness :
    counterAfter [ConnEvent.spawnIncrement, .runIncrement, .returnConn,
                  .closeConn, .spawnDecrement, .runDecrement] = 0 :=
  (dial_counter_bookkeeping
    [.spawnIncrement, .runIncrement, .returnConn, .closeConn,
     .spawnDecrement, .runDecrement] (by decide)).2.2.1

/-- C5: when the TCP dial fails, Dial calls ForceRefresh on the
provider exactly once, attempts the dial exactly once (no retry), and
returns a dial error wrapping the root cause and the instance's string
identity; the counter goroutine is never spawned and nothing is
closed. -/
theorem dial_tcp_failure_refreshes_once {ε α γ : Type} (env : DialEnv ε α γ)
    (instName addr : String) (tlsCfg : α) (e : ε)
    (hinst : env.instanceResult = .ok instName)
    (hinfo : env.connectInfo = .ok (addr, tlsCfg))
    (hdial : env.dialFunc (joinHostPort addr serverProxyPort) = .error e) :
    dial env = (.error (.dialError "failed to dial" instName e), ⟨1, 1, 0, false⟩) := by
  simp [dial, hinst, hinfo, hdial]

/-- Witness for C5. -/
theorem dial_tcp_failure_refreshes_once_witness :
    dial (⟨.ok "my-project:us-central1:my-instance", .ok ("10.0.0.1", 7),
           fun _ => .error "connection refused", true, 30, none, fun _ => none,
           none, none⟩ : DialEnv String Nat Nat) =
      (.error (.dialError "failed to dial" "my-project:us-central1:my-instance"
        "connection refused"), ⟨1, 1, 0, false⟩) :=
  dial_tcp_failure_refreshes_once _ "my-project:us-central1:my-instance"
    "10.0.0.1" 7 "connection refused" rfl rfl rfl

/-- C6: when the TLS handshake fails, Dial triggers ForceRefresh
exactly once, performs a best-effort close of the connection whose
error is ignored (the result does not depend on the close's outcome),
and returns a dial error wrapping the handshake failure and the
instance's string identity. -/
theorem dial_handshake_failure_cleanup {ε α γ : Type} (env : DialEnv ε α γ)
    (instName addr : String) (tlsCfg : α) (rawConn : γ) (e : ε)
    (hinst : env.instanceResult = .ok instName)
    (hinfo : env.connectInfo = .ok (addr, tlsCfg))
    (hdial : env.dialFunc (joinHostPort addr serverProxyPort) = .ok rawConn)
    (hka : keepAliveErr env instName = none)
    (hhs : env.handshake = some e) :
    dial env = (.error (.dialError "handshake failed" instName e), ⟨1, 1, 1, false⟩) ∧
    ∀ c, dial { env with closeErr := c } = dial env := by
  constructor
  · simp [dial, hinst, hinfo, hdial, hka, hhs]
  · intro c
    rfl

/-- Witness for C6. -/
theorem dial_handshake_failure_cleanup_witness :
    dial (⟨.ok "my-project:us-central1:my-instance", .ok ("10.0.0.1", 7),
           fun _ => .ok 99, true, 30, none, fun _ => none,
           some "bad certificate", some "close failed"⟩ : DialEnv String Nat Nat) =
      (.error (.dialError "handshake failed" "my-project:us-central1:my-instance"
        "bad certificate"), ⟨1, 1, 1, false⟩) :=
  (dial_handshake_failure_cleanup
    (⟨.ok "my-project:us-central1:my-instance", .ok ("10.0.0.1", 7),
      fun _ => .ok 99, true, 30, none, fun _ => none,
      some "bad certificate", some "close failed"⟩ : DialEnv String Nat Nat)
    "my-project:us-central1:my-instance"
    "10.0.0.1" 7 99 "bad certificate" rfl rfl rfl rfl rfl).1

/-- C7: when ConnectInfo fails, Dial returns that error unchanged (no
wrapping), performs no ForceRefresh, opens no TCP connection, closes
nothing and never spawns the counter goroutine. -/
theorem dial_connectInfo_error_propagates {ε α γ : Type} (env : DialEnv ε α γ)
    (instName : String) (e : ε)
    (hinst : env.instanceResult = .ok instName)
    (hinfo : env.connectInfo = .error e) :
    dial env = (.error (.passthrough e), ⟨0, 0, 0, false⟩) := by
  simp [dial, hinst, hinfo]

/-- Witness for C7. -/
theorem dial_connectInfo_error_propagates_witness :
    dial (⟨.ok "my-project:us-central1:my-instance", .error "metadata unavailable",
           fun _ => .ok 99, true, 30, none, fun _ => none, none,
           none⟩ : DialEnv String Nat Nat) =
      (.error (.passthrough "metadata unavailable"), ⟨0, 0, 0, false⟩) :=
  dial_connectInfo_error_propagates _ "my-project:us-central1:my-instance"
    "metadata unavailable" rfl rfl

/-- C8: the registry's get-or-create keeps at most one provider per
connection name: an existing entry is returned with the map unchanged;
a failed construction inserts nothing, returns the error, and leaves
the next call to construct again; a successful construction inserts
exactly the one new entry; and no call ever replaces an existing
entry. -/
theorem dialerInstance_get_or_create {ε ι : Type} (newInstance : String → Except ε ι)
    (instances : String → Option ι) (connName : String) :
    (∀ i, instances connName = some i →
      (dialerInstance newInstance instances connName).1 = .ok i ∧
      ∀ k, (dialerInstance newInstance instances connName).2 k = instances k) ∧
    (∀ e, instances connName = none → newInstance connName = .error e →
      (dialerInstance newInstance instances connName).1 = .error e ∧
      (∀ k, (dialerInstance newInstance instances connName).2 k = instances k) ∧
      ∀ (new2 : String → Except ε ι) (i2 : ι), new2 connName = .ok i2 →
        (dialerInstance new2 (dialerInstance newInstance instances connName).2
          connName).1 = .ok i2) ∧
    (∀ i, instances connName = none → newInstance connName = .ok i →
      (dialerInstance newInstance instances connName).1 = .ok i ∧
      (dialerInstance newInstance instances connName).2 connName = some i ∧
      ∀ k, k ≠ connName →
        (dialerInstance newInstance instances connName).2 k = instances k) ∧
    (∀ k i, instances k = some i →
      (dialerInstance newInstance instances connName).2 k = some i) := by
  refine ⟨?_, ?_, ?_, ?_⟩
  · intro i hi
    simp [dialerInstance, hi]
  · intro e hnone herr
    refine ⟨?_, ?_, ?_⟩
    · simp [dialerInstance, hnone, herr]
    · intro k
      simp [dialerInstance, hnone, herr]
    · intro new2 i2 hok
      simp [dialerInstance, hnone, herr, hok]
  · intro i hnone hok
    refine ⟨?_, ?_, ?_⟩
    · simp [dialerInstance, hnone, hok]
    · simp [dialerInstance, hnone, hok]
    · intro k hk
      simp [dialerInstance, hnone, hok, hk]
  · intro k i hk
    by_cases hc : instances connName = none
    · cases hnew : newInstance connName with
      | error e => simp [dialerInstance, hc, hnew, hk]
      | ok j =>
        simp only [dialerInstance, hc, hnew]
        by_cases hkc : k = connName
        · rw [hkc] at hk
          rw [hk] at hc
          exact absurd hc (by simp)
        · simp [hkc, hk]
    · obtain ⟨j, hj⟩ := Option.ne_none_iff_exists.mp hc
      simp [dialerInstance, ← hj, hk]

/-- Witness for C8: an existing entry is returned unchanged. -/
theorem dialerInstance_get_or_create_witness :
    (dialerInstance (fun _ => (.error "admin client broken" : Except String Nat))
      (fun k => if k = "my-project:us-central1:my-instance" then some 7 else none)
      "my-project:us-central1:my-instance").1 = .ok 7 :=
  ((dialerInstance_get_or_create
      (fun _ => (.error "admin client broken" : Except String Nat))
      (fun k => if k = "my-project:us-central1:my-instance" then some 7 else none)
      "my-project:us-central1:my-instance").1 7 (by decide)).1

/-- C9: the instrumented connection's Close returns exactly the
underlying close's result, and the registered callback is invoked if
and only if the underlying close reported no error. -/
theorem instrumentedConnClose_delegates {ε : Type} (u : Option ε) :
    (instrumentedConnClose u).1 = u ∧
    ((instrumentedConnClose u).2 = true ↔ u = none) := by
  cases u <;> simp [instrumentedConnClose]

/-- C10: when the connection is a TCP connection and enabling
keep-alive (or setting the keep-alive period) fails, Dial returns a
dial error carrying the instance's string identity, but performs no
ForceRefresh and does not close the already-opened connection. -/
theorem dial_keepalive_failure_no_refresh {ε α γ : Type} (env : DialEnv ε α γ)
    (instName addr : String) (tlsCfg : α) (rawConn : γ)
    (hinst : env.instanceResult = .ok instName)
    (hinfo : env.connectInfo = .ok (addr, tlsCfg))
    (hdial : env.dialFunc (joinHostPort addr serverProxyPort) = .ok rawConn)
    (htcp : env.isTCPConn = true) :
    (∀ e, env.setKeepAlive = some e →
      dial env = (.error (.dialError "failed to set keep-alive" instName e),
        ⟨0, 1, 0, false⟩)) ∧
    (∀ e, env.setKeepAlive = none →
      env.setKeepAlivePeriod env.tcpKeepAlive = some e →
      dial env = (.error (.dialError "failed to set keep-alive period" instName e),
        ⟨0, 1, 0, false⟩)) := by
  constructor
  · intro e hka
    simp [dial, hinst, hinfo, hdial, keepAliveErr, htcp, hka]
  · intro e hka hper
    simp [dial, hinst, hinfo, hdial, keepAliveErr, htcp, hka, hper]

/-- Witness for C10. -/
theorem dial_keepalive_failure_no_refresh_witness :
    dial (⟨.ok "my-project:us-central1:my-instance", .ok ("10.0.0.1", 7),
           fun _ => .ok 99, true, 30, some "setsockopt failed", fun _ => none,
           none, none⟩ : DialEnv String Nat Nat) =
      (.error (.dialError "failed to set keep-alive"
        "my-project:us-central1:my-instance" "setsockopt failed"),
       ⟨0, 1, 0, false⟩) :=
  (dial_keepalive_failure_no_refresh
    (⟨.ok "my-project:us-central1:my-instance", .ok ("10.0.0.1", 7),
      fun _ => .ok 99, true, 30, some "setsockopt failed", fun _ => none,
      none, none⟩ : DialEnv String Nat Nat)
    "my-project:us-central1:my-instance"
    "10.0.0.1" 7 99 rfl rfl rfl rfl).1 "setsockopt failed" rfl

end CloudSQLConn
